import Mathlib

/-!
Shallow embedding of the interactive terminal-session multiplexer of
`CA1/P2/admin_connection.py`, `CA1/P2/user_connection.py` and
`CA1/P3/cluster_system_health_monitor.py` (function `interactive_shell`
in each file), together with proofs of the specification claims about it.

Characters are modelled as Lean `Char`, command buffers and log entries as
`List Char`, received channel chunks as `String`.  One iteration of the
`while True: select(...)` loop is driven by a `SelectEvent` describing what
`select` reported ready and what the subsequent reads produced; a whole
session is driven by a finite list of such events.  Exceptions raised by
`channel.recv`, `channel.send` and `sys.stdin.read` are modelled as explicit
error outcomes that terminate the loop (they propagate through the `finally`
block in the source).
-/

namespace Shell

/-- Python whitespace stripped by `str.strip()`, restricted to the ASCII
range actually reachable here: space, tab, newline, carriage return,
vertical tab, form feed. -/
def isPySpace (c : Char) : Bool :=
  c = ' ' || c = '\t' || c = '\n' || c = '\r' || c = '\x0b' || c = '\x0c'

/-- `str.strip()` from the source (`command_buffer.strip()`): drop leading
and trailing whitespace characters. -/
def pyStrip (s : List Char) : List Char :=
  ((s.dropWhile isPySpace).reverse.dropWhile isPySpace).reverse

/-- `str.isprintable()` from the source (`char.isprintable()`), on the ASCII
range: true exactly for code points 0x20..0x7e.  (The Unicode categories
Python consults above ASCII are out of scope; every claim is insensitive to
which characters beyond ASCII count as printable.) -/
def isPyPrintable (c : Char) : Bool :=
  0x20 ≤ c.toNat && c.toNat ≤ 0x7e

/-- Lines 42-49 of `admin_connection.py` (identical in
`user_connection.py`): how one already-forwarded character updates the
in-progress `command_buffer` and the `commands_log`.
`'\r'`: append the stripped buffer to the log when non-empty, reset the
buffer; `'\x7f'`/`'\b'`: drop the last buffer character
(`command_buffer[:-1]`); printable: append to the buffer; anything else:
no change. -/
def feedChar (buffer : List Char) (log : List (List Char)) (c : Char) :
    List Char × List (List Char) :=
  if c = '\r' then
    if pyStrip buffer = [] then ([], log)
    else ([], log ++ [pyStrip buffer])
  else if c = '\x7f' ∨ c = '\x08' then
    (buffer.dropLast, log)
  else if isPyPrintable c then
    (buffer ++ [c], log)
  else
    (buffer, log)

/-- Feed a whole character sequence to the line assembler, left to right. -/
def feedString (buffer : List Char) (log : List (List Char)) (cs : List Char) :
    List Char × List (List Char) :=
  cs.foldl (fun bl c => feedChar bl.1 bl.2 c) (buffer, log)

/-- Outcome of the guarded `channel.recv(1024)` call in one loop iteration,
or `notReady` when `select` did not report the channel. `recv ""` is the
empty read (`if not data: break`); `timeout` is a caught `socket.timeout`
(`continue`); `recvErr` is any other exception (propagates). -/
inductive ChanEvent where
  | notReady
  | recv (data : String)
  | timeout
  | recvErr
  deriving DecidableEq, Repr

/-- Outcome of the `sys.stdin.read(1)` call in one loop iteration, or
`notReady` when `select` did not report stdin.  `sendFails` models
`channel.send(char)` raising (propagates); `readErr` models
`sys.stdin.read` itself raising. -/
inductive StdinEvent where
  | notReady
  | readChar (c : Char) (sendFails : Bool)
  | readErr
  deriving DecidableEq, Repr

/-- What one pass of the `select.select([channel, sys.stdin], [], [])`
iteration observes. -/
structure SelectEvent where
  chan : ChanEvent
  stdin : StdinEvent
  deriving DecidableEq, Repr

/-- Mutable state of one session: the in-progress `command_buffer`, the
`commands_log`, the characters sent on the channel so far, and the chunks
written to the local display so far. -/
structure ShellState where
  buffer : List Char
  log : List (List Char)
  sent : List Char
  screen : List String
  deriving DecidableEq, Repr

/-- Why the `while True` loop ended. -/
inductive ExitReason where
  | remoteEof
  | sentinel
  | errRecv
  | errSend
  | errStdinRead
  deriving DecidableEq, Repr

/-- Result of one loop iteration: continue looping, or leave the loop
(`break`, or an exception propagating towards `finally`). -/
inductive StepOut where
  | cont (s : ShellState)
  | exit (reason : ExitReason) (s : ShellState)
  deriving DecidableEq, Repr

/-- Lines 37-49 of `admin_connection.py`: the `if sys.stdin in r` block.
Read one char; `'\x1d'` breaks before anything is sent; otherwise the char
is sent (a send failure propagates before the buffer is touched) and then
fed to the line assembler. -/
def stdinStep (s : ShellState) : StdinEvent → StepOut
  | .notReady => .cont s
  | .readErr => .exit .errStdinRead s
  | .readChar c sendFails =>
    if c = '\x1d' then .exit .sentinel s
    else if sendFails then .exit .errSend s
    else
      let s1 := { s with sent := s.sent ++ [c] }
      let bl := feedChar s1.buffer s1.log c
      .cont { s1 with buffer := bl.1, log := bl.2 }

/-- Lines 26-49 of `admin_connection.py`: one full iteration of the
`while True` loop.  The channel block runs first; `recv ""` breaks,
a caught `socket.timeout` does `continue` (skipping the stdin block of
this iteration), any other recv exception propagates; otherwise the data
is written to the local display and the stdin block runs. -/
def stepIter (s : ShellState) (ev : SelectEvent) : StepOut :=
  match ev.chan with
  | .notReady => stdinStep s ev.stdin
  | .recv data =>
    if data = "" then .exit .remoteEof s
    else stdinStep { s with screen := s.screen ++ [data] } ev.stdin
  | .timeout => .cont s
  | .recvErr => .exit .errRecv s

/-- Result of running the loop on a finite event trace: either the trace is
exhausted with the loop still blocked in `select` (`running`), or the loop
exited for the given reason with the given state. -/
inductive LoopResult where
  | running (s : ShellState)
  | exited (reason : ExitReason) (s : ShellState)
  deriving DecidableEq, Repr

/-- The state carried by a `LoopResult`. -/
def LoopResult.state : LoopResult → ShellState
  | .running s => s
  | .exited _ s => s

/-- Run the `while True` loop of `interactive_shell` over an event trace. -/
def runLoop (s : ShellState) : List SelectEvent → LoopResult
  | [] => .running s
  | ev :: evs =>
    match stepIter s ev with
    | .cont s1 => runLoop s1 evs
    | .exit r s1 => .exited r s1

/-- Lines 52-53 of `admin_connection.py` (the `finally` block's flush): if
the stripped buffer is non-empty, append it to the log. -/
def flushBuffer (s : ShellState) : ShellState :=
  if pyStrip s.buffer = [] then s
  else { s with log := s.log ++ [pyStrip s.buffer] }

/-- Whole-session outcome: final state, how (and whether) the loop ended,
and the terminal-mode bookkeeping: how many times raw mode was entered and
the list of snapshots passed to `restore_terminal`. -/
structure SessionResult where
  state : ShellState
  reason : Option ExitReason
  rawEnterCount : Nat
  restoreCalls : List Nat
  deriving DecidableEq, Repr

/-- Lines 20-55 of `admin_connection.py`: `interactive_shell(channel,
commands_log)`.  `attrs` is the `TerminalSnapshot` captured by
`setup_terminal` (modelled as an opaque number), `initLog` the
`commands_log` list passed in, `trace` the events driving the loop.  On
every loop exit — break or propagated exception — the `finally` block
flushes the buffer and restores the captured attributes; if the trace is
exhausted the loop is still blocked and `finally` has not yet run. -/
def interactive_shell (attrs : Nat) (initLog : List (List Char))
    (trace : List SelectEvent) : SessionResult :=
  let s0 : ShellState := ⟨[], initLog, [], []⟩
  match runLoop s0 trace with
  | .running s => ⟨s, none, 1, []⟩
  | .exited r s => ⟨flushBuffer s, some r, 1, [attrs]⟩

end Shell

namespace UserShell

open Shell (isPySpace pyStrip isPyPrintable ChanEvent StdinEvent SelectEvent
  ShellState ExitReason StepOut LoopResult)

/-- Lines 42-49 of `user_connection.py`: the line assembler of the user
client, character-identical to the admin client's. -/
def feedChar (buffer : List Char) (log : List (List Char)) (c : Char) :
    List Char × List (List Char) :=
  if c = '\r' then
    if pyStrip buffer = [] then ([], log)
    else ([], log ++ [pyStrip buffer])
  else if c = '\x7f' ∨ c = '\x08' then
    (buffer.dropLast, log)
  else if isPyPrintable c then
    (buffer ++ [c], log)
  else
    (buffer, log)

/-- Lines 37-49 of `user_connection.py`: the `if sys.stdin in r` block. -/
def stdinStep (s : ShellState) : StdinEvent → StepOut
  | .notReady => .cont s
  | .readErr => .exit .errStdinRead s
  | .readChar c sendFails =>
    if c = '\x1d' then .exit .sentinel s
    else if sendFails then .exit .errSend s
    else
      let s1 := { s with sent := s.sent ++ [c] }
      let bl := feedChar s1.buffer s1.log c
      .cont { s1 with buffer := bl.1, log := bl.2 }

/-- Lines 26-49 of `user_connection.py`: one iteration of the loop. -/
def stepIter (s : ShellState) (ev : SelectEvent) : StepOut :=
  match ev.chan with
  | .notReady => stdinStep s ev.stdin
  | .recv data =>
    if data = "" then .exit .remoteEof s
    else stdinStep { s with screen := s.screen ++ [data] } ev.stdin
  | .timeout => .cont s
  | .recvErr => .exit .errRecv s

/-- The `while True` loop of `user_connection.py`'s `interactive_shell`. -/
def runLoop (s : ShellState) : List SelectEvent → LoopResult
  | [] => .running s
  | ev :: evs =>
    match stepIter s ev with
    | .cont s1 => runLoop s1 evs
    | .exit r s1 => .exited r s1

/-- Lines 52-53 of `user_connection.py`: the `finally` flush. -/
def flushBuffer (s : ShellState) : ShellState :=
  if pyStrip s.buffer = [] then s
  else { s with log := s.log ++ [pyStrip s.buffer] }

/-- Lines 20-55 of `user_connection.py`: `interactive_shell(channel,
commands_log)`. -/
def interactive_shell (attrs : Nat) (initLog : List (List Char))
    (trace : List SelectEvent) : Shell.SessionResult :=
  let s0 : ShellState := ⟨[], initLog, [], []⟩
  match runLoop s0 trace with
  | .running s => ⟨s, none, 1, []⟩
  | .exited r s => ⟨flushBuffer s, some r, 1, [attrs]⟩

end UserShell

namespace P3Shell

open Shell (ChanEvent StdinEvent SelectEvent ExitReason)

/-- Mutable state of a P3 session: the characters sent on the channel so
far and the chunks written to the local display.  The P3 `interactive_shell`
maintains no command buffer and no commands log. -/
structure P3State where
  sent : List Char
  screen : List String
  deriving DecidableEq, Repr

/-- Result of one loop iteration of the P3 shell. -/
inductive StepOut where
  | cont (s : P3State)
  | exit (reason : ExitReason) (s : P3State)
  deriving DecidableEq, Repr

/-- Lines 189-193 of `cluster_system_health_monitor.py`: the
`if sys.stdin in r` block.  The char is forwarded unless it is the
sentinel; nothing else happens. -/
def stdinStep (s : P3State) : StdinEvent → StepOut
  | .notReady => .cont s
  | .readErr => .exit .errStdinRead s
  | .readChar c sendFails =>
    if c = '\x1d' then .exit .sentinel s
    else if sendFails then .exit .errSend s
    else .cont { s with sent := s.sent ++ [c] }

/-- Lines 177-193 of `cluster_system_health_monitor.py`: one iteration of
the `while True` loop (same channel handling as the P2 clients). -/
def stepIter (s : P3State) (ev : SelectEvent) : StepOut :=
  match ev.chan with
  | .notReady => stdinStep s ev.stdin
  | .recv data =>
    if data = "" then .exit .remoteEof s
    else stdinStep { s with screen := s.screen ++ [data] } ev.stdin
  | .timeout => .cont s
  | .recvErr => .exit .errRecv s

/-- Loop outcome over a finite trace for the P3 shell. -/
inductive LoopResult where
  | running (s : P3State)
  | exited (reason : ExitReason) (s : P3State)
  deriving DecidableEq, Repr

/-- The `while True` loop of the P3 `interactive_shell`. -/
def runLoop (s : P3State) : List SelectEvent → LoopResult
  | [] => .running s
  | ev :: evs =>
    match stepIter s ev with
    | .cont s1 => runLoop s1 evs
    | .exit r s1 => .exited r s1

/-- Whole-session outcome of the P3 `interactive_shell`. -/
structure SessionResult where
  state : P3State
  reason : Option ExitReason
  rawEnterCount : Nat
  restoreCalls : List Nat
  deriving DecidableEq, Repr

/-- Lines 172-196 of `cluster_system_health_monitor.py`:
`interactive_shell(channel)`.  The `finally` block only restores the
terminal (there is no buffer to flush and no log to append to). -/
def interactive_shell (attrs : Nat) (trace : List SelectEvent) :
    SessionResult :=
  match runLoop ⟨[], []⟩ trace with
  | .running s => ⟨s, none, 1, []⟩
  | .exited r s => ⟨s, some r, 1, [attrs]⟩

/-- The command log produced by a P3 session.  The P3 `interactive_shell`
takes no `commands_log` argument and appends to no log anywhere in its
body, so the log of completed commands recorded by a P3 session is empty
whatever happens. -/
def sessionLog (_ : SessionResult) : List (List Char) := []

end P3Shell

namespace Shell

/-- The state carried by a step outcome. -/
def StepOut.state : StepOut → ShellState
  | .cont s => s
  | .exit _ s => s

/-- Prepend `L` to the command log of a state (used to relate sessions
started with different initial `commands_log` contents). -/
def shiftLog (L : List (List Char)) (s : ShellState) : ShellState :=
  { s with log := L ++ s.log }

/-- `shiftLog` applied under a step outcome. -/
def shiftOut (L : List (List Char)) : StepOut → StepOut
  | .cont s => .cont (shiftLog L s)
  | .exit r s => .exit r (shiftLog L s)

/-- `shiftLog` applied under a loop outcome. -/
def shiftLoop (L : List (List Char)) : LoopResult → LoopResult
  | .running s => .running (shiftLog L s)
  | .exited r s => .exited r (shiftLog L s)

/-- A well-formed command-log entry: fixed by stripping, non-empty, and
free of the line terminator and of the sentinel character. -/
def GoodEntry (e : List Char) : Prop :=
  pyStrip e = e ∧ e ≠ [] ∧ '\r' ∉ e ∧ '\x1d' ∉ e

/-- Session invariant: the buffer holds neither the line terminator nor
the sentinel, the sentinel was never sent, and all log entries are
well-formed. -/
def InvState (s : ShellState) : Prop :=
  '\r' ∉ s.buffer ∧ '\x1d' ∉ s.buffer ∧ '\x1d' ∉ s.sent ∧
    ∀ e ∈ s.log, GoodEntry e

end Shell

namespace P3Shell

/-- Forget the buffer and the log of a P2 shell state, keeping the
observables the P3 shell also has. -/
def proj (s : Shell.ShellState) : P3State :=
  ⟨s.sent, s.screen⟩

/-- `proj` applied under a step outcome. -/
def projOut : Shell.StepOut → StepOut
  | .cont s => .cont (proj s)
  | .exit r s => .exit r (proj s)

/-- `proj` applied under a loop outcome. -/
def projLoop : Shell.LoopResult → LoopResult
  | .running s => .running (proj s)
  | .exited r s => .exited r (proj s)

end P3Shell

namespace Shell

/-- Trace for refuting log-equivalence of the P2 and P3 shells: type one
printable character, complete the line, leave with the sentinel. -/
def traceC1 : List SelectEvent :=
  [⟨.notReady, .readChar 'a' false⟩,
   ⟨.notReady, .readChar '\r' false⟩,
   ⟨.notReady, .readChar '\x1d' false⟩]

/-- Trace witnessing the end-of-session flush: type one character of a
command, then the remote closes the channel. -/
def traceC2 : List SelectEvent :=
  [⟨.notReady, .readChar 'p' false⟩,
   ⟨.recv "", .notReady⟩]

/-- Trace witnessing terminal restoration: immediate sentinel exit. -/
def traceC3 : List SelectEvent :=
  [⟨.notReady, .readChar '\x1d' false⟩]

/-- Trace witnessing sentinel hygiene: one completed command, then a
sentinel exit. -/
def traceC4 : List SelectEvent :=
  [⟨.notReady, .readChar 'h' false⟩,
   ⟨.notReady, .readChar '\r' false⟩,
   ⟨.notReady, .readChar '\x1d' false⟩]

end Shell

namespace Shell

theorem dropWhile_dropWhile (p : Char → Bool) (l : List Char) :
    (l.dropWhile p).dropWhile p = l.dropWhile p := by
  induction l with
  | nil => rfl
  | cons a t ih =>
    by_cases h : p a
    · simp [List.dropWhile_cons, h, ih]
    · simp [List.dropWhile_cons, h]

theorem dropWhile_append_singleton (p : Char → Bool) (a : Char)
    (ha : p a = false) (l : List Char) :
    (l ++ [a]).dropWhile p = l.dropWhile p ++ [a] := by
  induction l with
  | nil => simp [List.dropWhile_cons, ha]
  | cons b t ih =>
    by_cases h : p b
    · simp [List.dropWhile_cons, h, ih]
    · simp [List.dropWhile_cons, h]

theorem dropWhile_head_false (p : Char → Bool) :
    ∀ (l : List Char) (a : Char) (t : List Char),
      l.dropWhile p = a :: t → p a = false := by
  intro l
  induction l with
  | nil => intro a t h; simp at h
  | cons b t1 ih =>
    intro a t h
    rw [List.dropWhile_cons] at h
    by_cases hb : p b
    · rw [if_pos hb] at h
      exact ih a t h
    · rw [if_neg hb] at h
      injection h with h1 h2
      rw [← h1]
      simpa using hb

theorem pyStrip_dropWhile (l : List Char) :
    (pyStrip l).dropWhile isPySpace = pyStrip l := by
  unfold pyStrip
  cases hm : l.dropWhile isPySpace with
  | nil => simp
  | cons a t =>
    have pa : isPySpace a = false := dropWhile_head_false _ l a t hm
    rw [List.reverse_cons, dropWhile_append_singleton _ a pa,
      List.reverse_append]
    simp [List.dropWhile_cons, pa]

theorem pyStrip_idem (l : List Char) : pyStrip (pyStrip l) = pyStrip l := by
  have h1 : (pyStrip l).dropWhile isPySpace = pyStrip l := pyStrip_dropWhile l
  show ((((pyStrip l).dropWhile isPySpace).reverse).dropWhile
    isPySpace).reverse = pyStrip l
  rw [h1]
  show (((((l.dropWhile isPySpace).reverse.dropWhile
      isPySpace).reverse).reverse).dropWhile isPySpace).reverse = pyStrip l
  rw [List.reverse_reverse, dropWhile_dropWhile]
  rfl

theorem mem_of_mem_pyStrip {c : Char} {l : List Char}
    (h : c ∈ pyStrip l) : c ∈ l := by
  unfold pyStrip at h
  rw [List.mem_reverse] at h
  have h2 := (List.dropWhile_sublist isPySpace).subset h
  rw [List.mem_reverse] at h2
  exact (List.dropWhile_sublist isPySpace).subset h2

end Shell

namespace Shell

theorem feedChar_wf (b : List Char) (lg : List (List Char)) (c : Char)
    (hb1 : '\r' ∉ b) (hb2 : '\x1d' ∉ b) (hlg : ∀ e ∈ lg, GoodEntry e) :
    ('\r' ∉ (feedChar b lg c).1 ∧ '\x1d' ∉ (feedChar b lg c).1) ∧
      ∀ e ∈ (feedChar b lg c).2, GoodEntry e := by
  unfold feedChar
  split_ifs with hr hs hbk hp
  · exact ⟨⟨by simp, by simp⟩, hlg⟩
  · refine ⟨⟨by simp, by simp⟩, ?_⟩
    intro e he
    rw [List.mem_append] at he
    cases he with
    | inl h => exact hlg e h
    | inr h =>
      rw [List.mem_singleton] at h
      subst h
      exact ⟨pyStrip_idem b, hs,
        fun hc => hb1 (mem_of_mem_pyStrip hc),
        fun hc => hb2 (mem_of_mem_pyStrip hc)⟩
  · refine ⟨⟨?_, ?_⟩, hlg⟩
    · exact fun hc => hb1 ((List.dropLast_sublist b).subset hc)
    · exact fun hc => hb2 ((List.dropLast_sublist b).subset hc)
  · refine ⟨⟨?_, ?_⟩, hlg⟩
    · intro hc
      rw [List.mem_append, List.mem_singleton] at hc
      cases hc with
      | inl h => exact hb1 h
      | inr h => exact hr h.symm
    · intro hc
      rw [List.mem_append, List.mem_singleton] at hc
      cases hc with
      | inl h => exact hb2 h
      | inr h =>
        rw [← h] at hp
        exact absurd hp (by decide)
  · exact ⟨⟨hb1, hb2⟩, hlg⟩

theorem feedString_wf :
    ∀ (cs : List Char) (b : List Char) (lg : List (List Char)),
      '\r' ∉ b → '\x1d' ∉ b → (∀ e ∈ lg, GoodEntry e) →
      ('\r' ∉ (feedString b lg cs).1 ∧ '\x1d' ∉ (feedString b lg cs).1) ∧
        ∀ e ∈ (feedString b lg cs).2, GoodEntry e := by
  intro cs
  induction cs with
  | nil => intro b lg h1 h2 h3; exact ⟨⟨h1, h2⟩, h3⟩
  | cons c cs ih =>
    intro b lg h1 h2 h3
    have hstep := feedChar_wf b lg c h1 h2 h3
    have : feedString b lg (c :: cs)
        = feedString (feedChar b lg c).1 (feedChar b lg c).2 cs := rfl
    rw [this]
    exact ih (feedChar b lg c).1 (feedChar b lg c).2
      hstep.1.1 hstep.1.2 hstep.2

end Shell

namespace Shell

/-- C5: for all character sequences fed to the keystroke line assembler,
every CommandLogEntry ever appended to the log is non-empty after trimming
and never contains the line-termination character `'\r'`; in particular the
whitespace-only line `"   \r"` appends no entry. -/
theorem c5_entries_trimmed_nonempty :
    (∀ cs : List Char, ∀ e ∈ (feedString [] [] cs).2,
        pyStrip e ≠ [] ∧ '\r' ∉ e) ∧
      feedString [] [] ("   \r".toList) = ([], []) := by
  constructor
  · intro cs e he
    have h := (feedString_wf cs [] [] (by simp) (by simp) (by simp)).2 e he
    refine ⟨?_, h.2.2.1⟩
    rw [h.1]
    exact h.2.1
  · decide

/-- Witness for C5 at the concrete sequence `"ab\r"` and its single log
entry `"ab"`. -/
theorem c5_witness :
    pyStrip ("ab".toList) ≠ [] ∧ '\r' ∉ ("ab".toList) :=
  c5_entries_trimmed_nonempty.1 ("ab\r".toList) ("ab".toList) (by decide)

/-- C6: feeding `"ls\x7f\x7fpwd\r"` to the assembler from an empty buffer
and empty log yields the log `["pwd"]`: the two backspaces fully erase
`"ls"` before `"pwd"` is typed. -/
theorem c6_backspaces_erase :
    feedString [] [] ("ls\x7f\x7fpwd\r".toList) = ([], ["pwd".toList]) := by
  decide

/-- C7: feeding `"ls -la\r"` to the assembler from an empty buffer and
empty log yields the log `["ls -la"]` with the buffer reset to empty. -/
theorem c7_simple_command :
    feedString [] [] ("ls -la\r".toList) = ([], ["ls -la".toList]) := by
  decide

/-- C8: a backspace/delete character (`'\x7f'` or `'\b'`) on an empty
buffer is a no-op (no error, buffer stays empty); on a non-empty buffer it
removes exactly the last character; the buffer length never underflows. -/
theorem c8_backspace_safe (b : List Char) (lg : List (List Char)) :
    feedChar b lg '\x7f' = (b.dropLast, lg) ∧
    feedChar b lg '\x08' = (b.dropLast, lg) ∧
    feedChar ([] : List Char) lg '\x7f' = ([], lg) ∧
    feedChar ([] : List Char) lg '\x08' = ([], lg) ∧
    (∀ c : Char, feedChar (b ++ [c]) lg '\x7f' = (b, lg)) ∧
    (∀ c : Char, feedChar (b ++ [c]) lg '\x08' = (b, lg)) := by
  refine ⟨rfl, rfl, rfl, rfl, fun c => ?_, fun c => ?_⟩
  · have h1 : feedChar (b ++ [c]) lg '\x7f' = ((b ++ [c]).dropLast, lg) := rfl
    rw [h1, List.dropLast_concat]
  · have h1 : feedChar (b ++ [c]) lg '\x08' = ((b ++ [c]).dropLast, lg) := rfl
    rw [h1, List.dropLast_concat]

end Shell

namespace Shell

/-- C2: on every session exit path (sentinel keystroke, remote end of
stream, or a propagated error), if the in-progress buffer is non-empty
after trimming, its trimmed content is appended as the final
CommandLogEntry before the session ends; no partially-typed command is
lost. -/
theorem c2_flush_on_every_exit (a : Nat) (L : List (List Char))
    (t : List SelectEvent) (r : ExitReason) (s : ShellState)
    (h : runLoop ⟨[], L, [], []⟩ t = .exited r s)
    (hb : pyStrip s.buffer ≠ []) :
    (interactive_shell a L t).reason = some r ∧
    (interactive_shell a L t).state.log = s.log ++ [pyStrip s.buffer] := by
  simp only [interactive_shell]
  rw [h]
  refine ⟨rfl, ?_⟩
  show (flushBuffer s).log = s.log ++ [pyStrip s.buffer]
  unfold flushBuffer
  rw [if_neg hb]

/-- Witness for C2: the remote closes the channel while `'p'` is pending;
the session ends on `remoteEof` with `"p"` flushed as the final entry. -/
theorem c2_witness :
    (interactive_shell 0 [] traceC2).reason = some .remoteEof ∧
    (interactive_shell 0 [] traceC2).state.log = [] ++ [pyStrip ['p']] :=
  c2_flush_on_every_exit 0 [] traceC2 .remoteEof ⟨['p'], [], ['p'], []⟩
    (by decide) (by decide)

/-- C3: the terminal attributes captured at session start are restored
exactly once (with exactly the captured snapshot) on every exit path —
sentinel exit, remote end of stream, and any propagated error — and raw
mode is entered exactly once per session; if the loop has not exited, no
restoration has happened yet.  Holds for the P2 and the P3 shells. -/
theorem c3_terminal_restored_once (a : Nat) (L : List (List Char))
    (t : List SelectEvent) :
    (interactive_shell a L t).rawEnterCount = 1 ∧
    (∀ r, (interactive_shell a L t).reason = some r →
      (interactive_shell a L t).restoreCalls = [a]) ∧
    ((interactive_shell a L t).reason = none →
      (interactive_shell a L t).restoreCalls = []) ∧
    (P3Shell.interactive_shell a t).rawEnterCount = 1 ∧
    (∀ r, (P3Shell.interactive_shell a t).reason = some r →
      (P3Shell.interactive_shell a t).restoreCalls = [a]) := by
  simp only [interactive_shell, P3Shell.interactive_shell]
  cases runLoop ⟨[], L, [], []⟩ t <;>
    cases P3Shell.runLoop ⟨[], []⟩ t <;> simp

/-- Witness for C3: a sentinel-exit session restores snapshot `5` once,
in both the P2 and the P3 shells. -/
theorem c3_witness :
    (interactive_shell 5 [] traceC3).restoreCalls = [5] ∧
    (P3Shell.interactive_shell 5 traceC3).restoreCalls = [5] :=
  ⟨(c3_terminal_restored_once 5 [] traceC3).2.1 .sentinel (by decide),
   (c3_terminal_restored_once 5 [] traceC3).2.2.2.2 .sentinel (by decide)⟩

end Shell

namespace Shell

theorem stdinStep_inv (s : ShellState) (ev : StdinEvent)
    (h : InvState s) : InvState (stdinStep s ev).state := by
  cases ev with
  | notReady => exact h
  | readErr => exact h
  | readChar c sf =>
    unfold stdinStep
    dsimp only
    split_ifs with h1 h2
    · exact h
    · exact h
    · obtain ⟨hb1, hb2, hs, hl⟩ := h
      have hf := feedChar_wf s.buffer s.log c hb1 hb2 hl
      refine ⟨hf.1.1, hf.1.2, ?_, hf.2⟩
      intro hc
      simp only [StepOut.state] at hc
      rw [List.mem_append, List.mem_singleton] at hc
      cases hc with
      | inl hx => exact hs hx
      | inr hx => exact h1 hx.symm

theorem stepIter_inv (s : ShellState) (ev : SelectEvent)
    (h : InvState s) : InvState (stepIter s ev).state := by
  unfold stepIter
  cases ev.chan with
  | notReady => exact stdinStep_inv s ev.stdin h
  | recv data =>
    dsimp only
    split_ifs with h1
    · exact h
    · exact stdinStep_inv _ ev.stdin h
  | timeout => exact h
  | recvErr => exact h

theorem runLoop_inv :
    ∀ (t : List SelectEvent) (s : ShellState), InvState s →
      InvState (runLoop s t).state := by
  intro t
  induction t with
  | nil => intro s h; exact h
  | cons ev evs ih =>
    intro s h
    unfold runLoop
    have hstep := stepIter_inv s ev h
    cases hx : stepIter s ev with
    | cont s1 =>
      rw [hx] at hstep
      exact ih s1 hstep
    | exit r s1 =>
      rw [hx] at hstep
      exact hstep

theorem flushBuffer_log (s : ShellState) (h : InvState s) :
    ∀ e ∈ (flushBuffer s).log, GoodEntry e := by
  unfold flushBuffer
  split_ifs with h1
  · exact h.2.2.2
  · intro e he
    rw [List.mem_append, List.mem_singleton] at he
    cases he with
    | inl hx => exact h.2.2.2 e hx
    | inr hx =>
      subst hx
      exact ⟨pyStrip_idem _, h1,
        fun hc => h.1 (mem_of_mem_pyStrip hc),
        fun hc => h.2.1 (mem_of_mem_pyStrip hc)⟩

theorem flushBuffer_sent (s : ShellState) :
    (flushBuffer s).sent = s.sent := by
  unfold flushBuffer
  split_ifs <;> rfl

theorem flushBuffer_keeps_buffer (s : ShellState) :
    (flushBuffer s).buffer = s.buffer := by
  unfold flushBuffer
  split_ifs <;> rfl

/-- C4: for every input sequence, the sentinel exit character `'\x1d'` is
never sent on the SessionChannel and never appears in the in-progress
buffer or in any CommandLogEntry — at every point during the run and in
the final session state. -/
theorem c4_sentinel_never_escapes (a : Nat) (t : List SelectEvent) :
    ('\x1d' ∉ (runLoop ⟨[], [], [], []⟩ t).state.sent ∧
     '\x1d' ∉ (runLoop ⟨[], [], [], []⟩ t).state.buffer ∧
     ∀ e ∈ (runLoop ⟨[], [], [], []⟩ t).state.log, '\x1d' ∉ e) ∧
    ('\x1d' ∉ (interactive_shell a [] t).state.sent ∧
     '\x1d' ∉ (interactive_shell a [] t).state.buffer ∧
     ∀ e ∈ (interactive_shell a [] t).state.log, '\x1d' ∉ e) := by
  have h0 : InvState ⟨[], [], [], []⟩ := ⟨by simp, by simp, by simp, by simp⟩
  have h := runLoop_inv t _ h0
  constructor
  · exact ⟨h.2.2.1, h.2.1, fun e he => (h.2.2.2 e he).2.2.2⟩
  · simp only [interactive_shell]
    cases hx : runLoop ⟨[], [], [], []⟩ t with
    | running s =>
      rw [hx] at h
      exact ⟨h.2.2.1, h.2.1, fun e he => (h.2.2.2 e he).2.2.2⟩
    | exited r s =>
      rw [hx] at h
      refine ⟨?_, ?_, fun e he => (flushBuffer_log s h e he).2.2.2⟩
      · rw [flushBuffer_sent]
        exact h.2.2.1
      · rw [flushBuffer_keeps_buffer]
        exact h.2.1

/-- Witness for C4: a session that completed the command `"h"` and left by
sentinel: the sentinel is neither among the sent characters nor in the
logged entry. -/
theorem c4_witness :
    '\x1d' ∉ (interactive_shell 0 [] traceC4).state.sent ∧
    '\x1d' ∉ (['h'] : List Char) :=
  ⟨(c4_sentinel_never_escapes 0 traceC4).2.1,
   (c4_sentinel_never_escapes 0 traceC4).2.2.2 ['h'] (by decide)⟩

end Shell

namespace Shell

/-- C9 counterexample: with both sources ready in the same wait cycle
(`select` reported the channel, whose read then times out, and stdin,
holding `'a'`), the iteration performs a bare `continue`: the ready local
character is NOT read and handled before the next readiness wait, and
nothing is forwarded — contradicting the claim that both sides are
processed, TimedOut included. -/
theorem c9_counterexample :
    stepIter ⟨[], [], [], []⟩ ⟨.timeout, .readChar 'a' false⟩
      = .cont ⟨[], [], [], []⟩ ∧
    (stepIter ⟨[], [], [], []⟩ ⟨.timeout, .readChar 'a' false⟩).state.sent
      ≠ ['a'] := by
  decide

/-- C9 amended: when both sources are ready and the channel read returns
data, both sides are processed before the next wait (the chunk goes to the
local display and the local character is forwarded and assembled); but when
the channel read reports TimedOut the iteration is abandoned with no state
change at all, and the ready local character is only consumed in a later
iteration. -/
theorem c9_amended_processing (s : ShellState) (d : String) (c : Char)
    (st : StdinEvent) (hd : d ≠ "") (hc : c ≠ '\x1d') :
    stepIter s ⟨.recv d, .readChar c false⟩ =
      .cont { buffer := (feedChar s.buffer s.log c).1,
              log := (feedChar s.buffer s.log c).2,
              sent := s.sent ++ [c],
              screen := s.screen ++ [d] } ∧
    stepIter s ⟨.timeout, st⟩ = .cont s := by
  constructor
  · unfold stepIter
    dsimp only
    rw [if_neg hd]
    unfold stdinStep
    dsimp only
    rw [if_neg hc]
    rfl
  · rfl

/-- Witness for the amended C9 at a concrete state and events. -/
theorem c9_witness :
    stepIter ⟨[], [], [], []⟩ ⟨.recv "ok", .readChar 'x' false⟩ =
      .cont { buffer := (feedChar [] [] 'x').1,
              log := (feedChar [] [] 'x').2,
              sent := [] ++ ['x'],
              screen := [] ++ ["ok"] } ∧
    stepIter ⟨[], [], [], []⟩ ⟨.timeout, .notReady⟩
      = .cont ⟨[], [], [], []⟩ :=
  c9_amended_processing ⟨[], [], [], []⟩ "ok" 'x' .notReady
    (by decide) (by decide)

theorem feedChar_shift (L : List (List Char)) (b : List Char)
    (lg : List (List Char)) (c : Char) :
    feedChar b (L ++ lg) c
      = ((feedChar b lg c).1, L ++ (feedChar b lg c).2) := by
  unfold feedChar
  split_ifs <;> simp

theorem stdinStep_shift (L : List (List Char)) (s : ShellState)
    (ev : StdinEvent) :
    stdinStep (shiftLog L s) ev = shiftOut L (stdinStep s ev) := by
  cases ev with
  | notReady => rfl
  | readErr => rfl
  | readChar c sf =>
    unfold stdinStep
    dsimp only
    split_ifs with h1 h2
    · rfl
    · rfl
    · simp only [shiftLog, shiftOut]
      rw [feedChar_shift]

theorem stepIter_shift (L : List (List Char)) (s : ShellState)
    (ev : SelectEvent) :
    stepIter (shiftLog L s) ev = shiftOut L (stepIter s ev) := by
  unfold stepIter
  cases ev.chan with
  | notReady => exact stdinStep_shift L s ev.stdin
  | recv data =>
    dsimp only
    split_ifs with h1
    · rfl
    · exact stdinStep_shift L { s with screen := s.screen ++ [data] } ev.stdin
  | timeout => rfl
  | recvErr => rfl

theorem runLoop_shift (L : List (List Char)) :
    ∀ (t : List SelectEvent) (s : ShellState),
      runLoop (shiftLog L s) t = shiftLoop L (runLoop s t) := by
  intro t
  induction t with
  | nil => intro s; rfl
  | cons ev evs ih =>
    intro s
    unfold runLoop
    rw [stepIter_shift]
    cases stepIter s ev with
    | cont s1 => exact ih s1
    | exit r s1 => rfl

theorem flushBuffer_shift (L : List (List Char)) (s : ShellState) :
    flushBuffer (shiftLog L s) = shiftLog L (flushBuffer s) := by
  unfold flushBuffer shiftLog
  dsimp only
  split_ifs with h1
  · rfl
  · simp

/-- C10: `interactive_shell` only ever appends to the `commands_log` it is
given: for every input trace, the entries present before the session are
still there, unmodified and in order, followed by exactly the entries a
session started on an empty log would have produced. -/
theorem c10_log_append_only (a : Nat) (L : List (List Char))
    (t : List SelectEvent) :
    (interactive_shell a L t).state.log
      = L ++ (interactive_shell a [] t).state.log := by
  simp only [interactive_shell]
  have h0 : (⟨[], L, [], []⟩ : ShellState) = shiftLog L ⟨[], [], [], []⟩ := by
    simp [shiftLog]
  rw [h0, runLoop_shift]
  cases runLoop ⟨[], [], [], []⟩ t with
  | running s => simp [shiftLoop, shiftLog]
  | exited r s =>
    show (flushBuffer (shiftLog L s)).log = L ++ (flushBuffer s).log
    rw [flushBuffer_shift]
    rfl

end Shell

namespace Shell

theorem flushBuffer_screen (s : ShellState) :
    (flushBuffer s).screen = s.screen := by
  unfold flushBuffer
  split_ifs <;> rfl

theorem user_stepIter_eq (s : ShellState) (ev : SelectEvent) :
    UserShell.stepIter s ev = stepIter s ev := rfl

theorem user_runLoop_eq :
    ∀ (t : List SelectEvent) (s : ShellState),
      UserShell.runLoop s t = runLoop s t := by
  intro t
  induction t with
  | nil => intro s; rfl
  | cons ev evs ih =>
    intro s
    unfold UserShell.runLoop runLoop
    rw [user_stepIter_eq]
    cases stepIter s ev with
    | cont s1 => exact ih s1
    | exit r s1 => rfl

theorem p3_stdinStep_proj (s : ShellState) (ev : StdinEvent) :
    P3Shell.stdinStep (P3Shell.proj s) ev
      = P3Shell.projOut (stdinStep s ev) := by
  cases ev with
  | notReady => rfl
  | readErr => rfl
  | readChar c sf =>
    unfold stdinStep P3Shell.stdinStep
    dsimp only
    split_ifs with h1 h2
    · rfl
    · rfl
    · rfl

theorem p3_stepIter_proj (s : ShellState) (ev : SelectEvent) :
    P3Shell.stepIter (P3Shell.proj s) ev
      = P3Shell.projOut (stepIter s ev) := by
  unfold stepIter P3Shell.stepIter
  cases ev.chan with
  | notReady => exact p3_stdinStep_proj s ev.stdin
  | recv data =>
    dsimp only
    split_ifs with h1
    · rfl
    · exact p3_stdinStep_proj { s with screen := s.screen ++ [data] } ev.stdin
  | timeout => rfl
  | recvErr => rfl

theorem p3_runLoop_proj :
    ∀ (t : List SelectEvent) (s : ShellState),
      P3Shell.runLoop (P3Shell.proj s) t
        = P3Shell.projLoop (runLoop s t) := by
  intro t
  induction t with
  | nil => intro s; rfl
  | cons ev evs ih =>
    intro s
    unfold P3Shell.runLoop runLoop
    rw [p3_stepIter_proj]
    cases stepIter s ev with
    | cont s1 => exact ih s1
    | exit r s1 => rfl

/-- C1 counterexample: on the concrete session that types `'a'`, completes
the line, and leaves by sentinel, the admin/user shells log the command
`"a"`, while the P3 shell — which has no `commands_log` at all — logs
nothing; so the three implementations do not produce the same command
log. -/
theorem c1_counterexample :
    ¬ ((interactive_shell 0 [] traceC1).state.log
        = P3Shell.sessionLog (P3Shell.interactive_shell 0 traceC1)) := by
  decide

/-- C1 amended: the two P2 `interactive_shell` implementations
(`admin_connection.py` and `user_connection.py`) are behaviorally
identical in every respect; the P3 implementation forwards the same bytes,
writes the same data to the local display, terminates on the same events
and restores the terminal identically, but it maintains no command buffer
and produces no command log, so only the byte-forwarding/termination
behavior — not the command log — is shared by all three. -/
theorem c1_amended_equivalence :
    (∀ (a : Nat) (L : List (List Char)) (t : List SelectEvent),
        UserShell.interactive_shell a L t = interactive_shell a L t) ∧
    (∀ (a : Nat) (t : List SelectEvent),
        (P3Shell.interactive_shell a t).state
            = P3Shell.proj (interactive_shell a [] t).state ∧
        (P3Shell.interactive_shell a t).reason
            = (interactive_shell a [] t).reason ∧
        (P3Shell.interactive_shell a t).rawEnterCount
            = (interactive_shell a [] t).rawEnterCount ∧
        (P3Shell.interactive_shell a t).restoreCalls
            = (interactive_shell a [] t).restoreCalls) := by
  constructor
  · intro a L t
    simp only [UserShell.interactive_shell, interactive_shell]
    rw [user_runLoop_eq]
    cases runLoop ⟨[], L, [], []⟩ t with
    | running s => rfl
    | exited r s => rfl
  · intro a t
    simp only [P3Shell.interactive_shell, interactive_shell]
    have h0 : (⟨[], []⟩ : P3Shell.P3State)
        = P3Shell.proj ⟨[], [], [], []⟩ := rfl
    rw [h0, p3_runLoop_proj]
    cases runLoop ⟨[], [], [], []⟩ t with
    | running s => exact ⟨rfl, rfl, rfl, rfl⟩
    | exited r s =>
      refine ⟨?_, rfl, rfl, rfl⟩
      show P3Shell.proj s = P3Shell.proj (flushBuffer s)
      unfold P3Shell.proj
      rw [flushBuffer_sent, flushBuffer_screen]

end Shell
